import Mathlib

/-!
Formal model of the Sparkify data-lake ETL pipeline (`etl.py`).

The pipeline reads song-metadata JSON records and user-activity-log JSON
records, reshapes them into five output tables (`songs`, `artists`, `users`,
`time`, `songplays`) and writes them as parquet files.  We embed the
transformation rules as pure functions over lists of records:

* dataframes are lists of rows (row types are structures whose fields are
  `Option`-valued where the column is nullable);
* `.distinct()` is set-distinctness, embedded as `List.dedup`;
* joins are embedded as list comprehensions (`innerJoin`, `leftJoin`) whose
  condition follows Spark's null-propagating column equality;
* parquet writes are embedded as slots in an `OutputStore` state, with the
  two Spark save modes that occur in the script (`overwrite`, and the
  default error-if-exists mode of `DataFrameWriter.parquet`).

Every definition is translated from `etl.py` (line references are given in
the doc comments); the only modelled-from-spec part is the behaviour of the
external JSON schema-on-read loader, marked as such below.
-/

/-- Activity-log record as read by `spark.read.json` (etl.py line 86), with the
fields the script uses.  `ts` is the event timestamp in epoch milliseconds
(inferred as a long by the JSON reader); the remaining columns are nullable. -/
structure LogRecord where
  userId : Option String
  firstName : Option String
  lastName : Option String
  gender : Option String
  level : Option String
  ts : Nat
  page : Option String
  song : Option String
  artist : Option String
  sessionId : Option Int
  location : Option String
  userAgent : Option String
deriving DecidableEq

/-- Song-metadata record under the declared schema (etl.py lines 42-51); every
attribute is nullable, since the schema-on-read loader coerces missing or
ill-typed attributes to null. -/
structure SongRecord where
  num_songs : Option Int
  artist_id : Option String
  artist_latitude : Option Rat
  artist_longitude : Option Rat
  artist_location : Option String
  artist_name : Option String
  song_id : Option String
  title : Option String
  duration : Option Rat
  year : Option Int
deriving DecidableEq

/-- Row of the `songs` table (etl.py line 55). -/
structure SongsRow where
  song_id : Option String
  title : Option String
  artist_id : Option String
  year : Option Int
  duration : Option Rat
deriving DecidableEq

/-- Row of the `artists` table (etl.py lines 62-66). -/
structure ArtistsRow where
  artist_id : Option String
  name : Option String
  location : Option String
  latitude : Option Rat
  longitude : Option Rat
deriving DecidableEq

/-- Row of the `users` table (etl.py lines 92-97). -/
structure UsersRow where
  user_id : Option String
  first_name : Option String
  last_name : Option String
  gender : Option String
  level : Option String
deriving DecidableEq

/-- Projection of a song record onto the `songs` columns (etl.py line 55). -/
def songsProj (r : SongRecord) : SongsRow :=
  { song_id := r.song_id, title := r.title, artist_id := r.artist_id,
    year := r.year, duration := r.duration }

/-- Projection of a song record onto the `artists` columns, with the renames of
etl.py lines 62-66. -/
def artistsProj (r : SongRecord) : ArtistsRow :=
  { artist_id := r.artist_id, name := r.artist_name, location := r.artist_location,
    latitude := r.artist_latitude, longitude := r.artist_longitude }

/-- The `songs` table: projection then `.distinct()` (etl.py line 55). -/
def songs_table (srecs : List SongRecord) : List SongsRow :=
  (srecs.map songsProj).dedup

/-- The `artists` table: projection, renames, then `.distinct()`
(etl.py lines 62-66). -/
def artists_table (srecs : List SongRecord) : List ArtistsRow :=
  (srecs.map artistsProj).dedup

/-- Projection of an activity record onto the `users` columns with the renames
of etl.py lines 92-97. -/
def usersProj (e : LogRecord) : UsersRow :=
  { user_id := e.userId, first_name := e.firstName, last_name := e.lastName,
    gender := e.gender, level := e.level }

/-- The activity records that qualify as song plays:
`df.where(df.page == 'NextSong')` (etl.py line 89). -/
def nextSongEvents (logs : List LogRecord) : List LogRecord :=
  logs.filter fun e => e.page == some "NextSong"

/-- The `users` table: projection of the qualifying records then `.distinct()`
(etl.py lines 92-97). -/
def users_table (logs : List LogRecord) : List UsersRow :=
  ((nextSongEvents logs).map usersProj).dedup

/-- Civil UTC date (year, month, day) of a day count since 1970-01-01, by the
standard Gregorian era decomposition; this embeds the calendar conversion that
Python's `datetime.utcfromtimestamp` performs (etl.py lines 104, 107, 111). -/
def civilFromDays (d : Nat) : Nat × Nat × Nat :=
  let z := d + 719468
  let era := z / 146097
  let doe := z % 146097
  let yoe := (doe - doe / 1460 + doe / 36524 - doe / 146096) / 365
  let y := yoe + era * 400
  let doy := doe - (365 * yoe + yoe / 4 - yoe / 100)
  let mp := (5 * doy + 2) / 153
  let day := doy - (153 * mp + 2) / 5 + 1
  let m := if mp < 10 then mp + 3 else mp - 9
  (if m ≤ 2 then y + 1 else y, m, day)

/-- Day count since the Unix epoch of an epoch-second value. -/
def epochDays (s : Nat) : Nat := s / 86400

/-- Seconds elapsed since UTC midnight of an epoch-second value. -/
def secOfDay (s : Nat) : Nat := s % 86400

/-- Two-digit zero padding, as `strftime` applies to `%m %d %H %M %S`. -/
def pad2 (n : Nat) : String := if n < 10 then "0" ++ toString n else toString n

/-- Rendering of an epoch-second value as `strftime("%Y-%m-%d %H:%M:%S")` of
the corresponding UTC instant (etl.py line 104). -/
def formatSeconds (s : Nat) : String :=
  let c := civilFromDays (epochDays s)
  let r := secOfDay s
  toString c.1 ++ "-" ++ pad2 c.2.1 ++ "-" ++ pad2 c.2.2 ++ " " ++
    pad2 (r / 3600) ++ ":" ++ pad2 (r % 3600 / 60) ++ ":" ++ pad2 (r % 60)

/-- The `get_timestamp` udf (etl.py line 104):
`datetime.utcfromtimestamp(ts / 1000.0).strftime("%Y-%m-%d %H:%M:%S")`.
`ts / 1000.0` carries the epoch-millisecond value to seconds and `%S` keeps
whole seconds only, so the rendered instant is `ts / 1000` epoch seconds
(the float quotient of an epoch-millisecond magnitude differs from the exact
quotient by far less than the millisecond that would be needed to move it
across a second boundary). -/
def get_timestamp (ts : Nat) : String := formatSeconds (ts / 1000)

/-- Proleptic-Gregorian ordinal of an epoch-day number: Python's
`date.toordinal` assigns 0001-01-01 ordinal 1, and 1970-01-01 has
ordinal 719163. -/
def pyOrdinal (d : Nat) : Nat := d + 719163

/-- Python's `date.weekday()` (Monday = 0 .. Sunday = 6), defined in CPython as
`(toordinal() + 6) % 7`. -/
def pyWeekday (d : Nat) : Nat := (pyOrdinal d + 6) % 7

/-- The `get_week_day` udf (etl.py line 111):
`datetime.utcfromtimestamp(ts / 1000.0).weekday()`. -/
def get_week_day (ts : Nat) : Nat := pyWeekday (epochDays (ts / 1000))

/-- Reference weekday convention (Monday = 0 .. Sunday = 6) of an epoch-day
number, anchored on the fact that 1970-01-01 was a Thursday (index 3). -/
def isoWeekdayOfMillis (ts : Nat) : Nat := (epochDays (ts / 1000) + 3) % 7

/-- Sakamoto's day-of-week algorithm (Sunday = 0 .. Saturday = 6), used as an
independent reference computation on a civil date. -/
def sakamotoSundayWeekday (y m day : Nat) : Nat :=
  let offs : List Nat := [0, 3, 2, 5, 0, 3, 5, 1, 4, 6, 2, 4]
  let yy := if m < 3 then y - 1 else y
  (yy + yy / 4 - yy / 100 + yy / 400 + offs.getD (m - 1) 0 + day) % 7

/-- Reference ISO-convention weekday (Monday = 0 .. Sunday = 6) of a civil
date, via Sakamoto's algorithm. -/
def isoWeekdayFromCivil (y m day : Nat) : Nat :=
  (sakamotoSundayWeekday y m day + 6) % 7

/-- Gregorian leap-year test. -/
def isLeap (y : Nat) : Bool := (y % 4 == 0 && y % 100 != 0) || y % 400 == 0

/-- Month lengths of a (leap or common) year. -/
def monthLengths (leap : Bool) : List Nat :=
  [31, if leap then 29 else 28, 31, 30, 31, 30, 31, 31, 30, 31, 30, 31]

/-- Day-of-year (1-based) of a civil date. -/
def dayOfYear (y m day : Nat) : Nat :=
  ((monthLengths (isLeap y)).take (m - 1)).sum + day

/-- Number of ISO weeks of a year (52 or 53). -/
def weeksInIsoYear (y : Nat) : Nat :=
  let p := fun yy => (yy + yy / 4 - yy / 100 + yy / 400) % 7
  if p y = 4 ∨ p (y - 1) = 3 then 53 else 52

/-- ISO 8601 week-of-year of a civil date: this embeds Spark's `weekofyear`
(etl.py line 115). -/
def isoWeekOfYear (y m day : Nat) : Nat :=
  let wd := isoWeekdayFromCivil y m day + 1
  let w := (dayOfYear y m day + 10 - wd) / 7
  if w = 0 then weeksInIsoYear (y - 1)
  else if w > weeksInIsoYear y then 1
  else w

/-- Row of the `time` table (etl.py lines 113-126). `start_time` is the string
produced by the `get_timestamp` udf (the script declares it `StringType`). -/
structure TimeRow where
  start_time : String
  hour : Nat
  day : Nat
  week : Nat
  month : Nat
  year : Nat
  weekday : Nat
deriving DecidableEq

/-- The `time`-table row derived from one qualifying record's `ts`
(etl.py lines 113-126): `hour`, `day`, `week`, `month`, `year` are extracted by
the Spark date functions from the `timestamp` string column (which renders
exactly the UTC fields of `ts / 1000`), and `weekday` by the `get_week_day`
udf directly from `ts`. -/
def timeRowOf (ts : Nat) : TimeRow :=
  let s := ts / 1000
  let c := civilFromDays (epochDays s)
  { start_time := get_timestamp ts
    hour := secOfDay s / 3600
    day := c.2.2
    week := isoWeekOfYear c.1 c.2.1 c.2.2
    month := c.2.1
    year := c.1
    weekday := get_week_day ts }

/-- The `time` table (etl.py lines 113-126): one row per qualifying activity
record; the script applies no `.distinct()` to it. -/
def time_table (logs : List LogRecord) : List TimeRow :=
  (nextSongEvents logs).map fun e => timeRowOf e.ts

/-- Spark's null-propagating equality of two string columns, as used in the
join conditions of etl.py lines 138-139: a null operand never compares
equal (the SQL comparison is null, and a null condition does not match). -/
def sqlEqStr : Option String → Option String → Bool
  | some a, some b => a == b
  | _, _ => false

/-- Value of the digit list of a decimal numeral. -/
def digitsVal (cs : List Char) : Nat :=
  cs.foldl (fun n c => 10 * n + (c.toNat - 48)) 0

/-- Characters that may occur in the decimal literals accepted by Spark's
string-to-double cast. -/
def doubleChar (c : Char) : Bool := c.isDigit || c == '.' || c == '-' || c == '+'

/-- Unsigned decimal literal: digits with an optional fraction part. -/
def parseUnsigned (cs : List Char) : Option Rat :=
  match cs.splitOn '.' with
  | [ip] =>
      if !ip.isEmpty && ip.all Char.isDigit then some (digitsVal ip : Rat) else none
  | [ip, fp] =>
      if (!ip.isEmpty || !fp.isEmpty) && ip.all Char.isDigit && fp.all Char.isDigit then
        some ((digitsVal ip : Rat) + (digitsVal fp : Rat) / ((10 : Rat) ^ fp.length))
      else none
  | _ => none

/-- Signed decimal literal. -/
def parseDecimal : List Char → Option Rat
  | [] => none
  | '-' :: rest => (parseUnsigned rest).map (fun q => -q)
  | '+' :: rest => parseUnsigned rest
  | cs => parseUnsigned cs

/-- Spark's cast of a string to a double: the result is null unless the string
is a decimal numeric literal.  (Spark additionally trims surrounding
whitespace and accepts exponent and infinity forms; like this reduced grammar,
that grammar rejects every string containing a colon or an interior space, and
those are the only strings this pipeline ever casts.) -/
def castDouble (s : String) : Option Rat :=
  if s.data.all doubleChar then parseDecimal s.data else none

/-- The join condition of etl.py lines 141-142,
`df_artists_songs_join_df.ts == time_table.start_time`: `ts` is a long column
and `start_time` a string column, so Spark compares them by casting both to
double; a null cast of the string makes the comparison unmatched.  (The long
magnitudes involved are far below 2^53, so the long-to-double cast is exact.) -/
def tsEqStartTime (ts : Nat) (t : TimeRow) : Bool :=
  match castDouble t.start_time with
  | some q => q == (ts : Rat)
  | none => false

/-- Inner join of two row lists under a boolean condition: one output row per
matching pair, in left-then-right nesting order. -/
def innerJoin {α β : Type} (l : List α) (r : List β) (c : α → β → Bool) :
    List (α × β) :=
  l.flatMap fun a => (r.filter fun b => c a b).map fun b => (a, b)

/-- Matches of a left row in a left join: the matching right rows, or a single
null when there is none. -/
def nullExtend {β : Type} : List β → List (Option β)
  | [] => [none]
  | ms => ms.map some

/-- Left outer join of two row lists under a boolean condition. -/
def leftJoin {α β : Type} (l : List α) (r : List β) (c : α → β → Bool) :
    List (α × Option β) :=
  l.flatMap fun a => (nullExtend (r.filter fun b => c a b)).map fun ob => (a, ob)

/-- Song columns that survive the `.drop('artist_id')` of etl.py line 138. -/
structure SongsNoArtistId where
  song_id : Option String
  title : Option String
  year : Option Int
  duration : Option Rat
deriving DecidableEq

/-- The `.drop('artist_id')` projection of etl.py line 138 (only the song side
of the join carries an `artist_id` column). -/
def dropArtistId (s : SongsRow) : SongsNoArtistId :=
  { song_id := s.song_id, title := s.title, year := s.year, duration := s.duration }

/-- Artist columns after the `.drop('location')` of etl.py line 136, applied to
the `artists` table read back from parquet. -/
structure ArtistsDropLoc where
  artist_id : Option String
  name : Option String
  latitude : Option Rat
  longitude : Option Rat
deriving DecidableEq

/-- The `.drop('location')` projection of etl.py line 136. -/
def dropLocation (a : ArtistsRow) : ArtistsDropLoc :=
  { artist_id := a.artist_id, name := a.name, latitude := a.latitude,
    longitude := a.longitude }

/-- Row of the `songplays` fact table (etl.py lines 144-155).  `start_time`,
`year` and `month` resolve to the time-table side of the left join of lines
141-143 (the song-side `year` is dropped there, and the log side has no
`start_time` or `month` column), so they are null on unmatched rows. -/
structure SongplayRow where
  start_time : Option String
  user_id : Option String
  level : Option String
  song_id : Option String
  artist_id : Option String
  session_id : Option Int
  location : Option String
  user_agent : Option String
  year : Option Nat
  month : Option Nat
deriving DecidableEq

/-- The final projection of etl.py lines 144-155 applied to one row of the
joined dataset `(((event, song sans artist_id), artist sans location),
optional time row)`. -/
def mkSongplayRow
    (p : ((LogRecord × SongsNoArtistId) × ArtistsDropLoc) × Option TimeRow) :
    SongplayRow :=
  { start_time := p.2.map fun t => t.start_time
    user_id := p.1.1.1.userId
    level := p.1.1.1.level
    song_id := p.1.1.2.song_id
    artist_id := p.1.2.artist_id
    session_id := p.1.1.1.sessionId
    location := p.1.1.1.location
    user_agent := p.1.1.1.userAgent
    year := p.2.map fun t => t.year
    month := p.2.map fun t => t.month }

/-- The join of etl.py line 138: qualifying events against the read-back
`songs` table on `song_df.title == df.song`, then `.drop('artist_id')`. -/
def df_songs_join_df (logs : List LogRecord) (songDf : List SongsRow) :
    List (LogRecord × SongsNoArtistId) :=
  (innerJoin (nextSongEvents logs) songDf fun e s => sqlEqStr s.title e.song).map
    fun p => (p.1, dropArtistId p.2)

/-- The join of etl.py line 139: the previous result against the read-back
`artists` table (sans `location`) on
`df_songs_join_df.artist == artists_df.name`. -/
def df_artists_songs_join_df (logs : List LogRecord) (songDf : List SongsRow)
    (artistsDf : List ArtistsDropLoc) :
    List ((LogRecord × SongsNoArtistId) × ArtistsDropLoc) :=
  innerJoin (df_songs_join_df logs songDf) artistsDf
    fun p a => sqlEqStr p.1.artist a.name

/-- The left join of etl.py lines 141-143 against the in-memory `time` table on
`ts == start_time`, followed by the projection of lines 144-155. -/
def songplays_from (logs : List LogRecord) (songDf : List SongsRow)
    (artistsDf : List ArtistsDropLoc) : List SongplayRow :=
  (leftJoin (df_artists_songs_join_df logs songDf artistsDf) (time_table logs)
      fun p t => tsEqStartTime p.1.1.ts t).map mkSongplayRow

/-- The `songplays` table of a run (etl.py lines 132-155): the song and artist
inputs of the join are the `songs` and `artists` tables written earlier in the
same run and read back unchanged from parquet. -/
def songplays_table (logs : List LogRecord) (srecs : List SongRecord) :
    List SongplayRow :=
  songplays_from logs (songs_table srecs) ((artists_table srecs).map dropLocation)

/-- Per-event view of the songplays pipeline: the rows of `songplays` that one
activity record generates, given fixed song, artist and time inputs.  The
theorem `songplays_from_eq_events` below proves that the staged joins of
etl.py lines 138-155 factor into this form. -/
def eventSongplays (songDf : List SongsRow) (artistsDf : List ArtistsDropLoc)
    (times : List TimeRow) (e : LogRecord) : List SongplayRow :=
  if e.page == some "NextSong" then
    (songDf.filter fun s => sqlEqStr s.title e.song).flatMap fun s =>
      (artistsDf.filter fun a => sqlEqStr e.artist a.name).flatMap fun a =>
        (nullExtend (times.filter fun t => tsEqStartTime e.ts t)).map fun ot =>
          mkSongplayRow (((e, dropArtistId s), a), ot)
  else []

/-- The parquet destinations under the output root: one slot per output table,
`none` when no content exists at the destination. -/
structure OutputStore where
  songs : Option (List SongsRow)
  artists : Option (List ArtistsRow)
  users : Option (List UsersRow)
  time : Option (List TimeRow)
  songplays : Option (List SongplayRow)
deriving DecidableEq

/-- The two Spark save modes occurring in the script: `mode='overwrite'`
(etl.py lines 59, 70, 130, 158) and the default mode of
`DataFrameWriter.parquet`, which raises when the destination already exists
(etl.py line 101 passes no mode). -/
inductive SaveMode where
  | overwrite
  | errorIfExists
deriving DecidableEq

/-- One parquet write: overwrite replaces any existing content; the default
mode errors when content exists. -/
def writeSlot {α : Type} (mode : SaveMode) (slot : Option α) (content : α) :
    Except String (Option α) :=
  match mode, slot with
  | .errorIfExists, some _ => .error "path already exists"
  | _, _ => .ok (some content)

/-- `process_song_data` (etl.py lines 29-70): build and write the `songs` table
(overwrite), then the `artists` table (overwrite). -/
def process_song_data (store : OutputStore) (srecs : List SongRecord) :
    Except String OutputStore := do
  let s ← writeSlot .overwrite store.songs (songs_table srecs)
  let a ← writeSlot .overwrite store.artists (artists_table srecs)
  pure { store with songs := s, artists := a }

/-- `process_log_data` (etl.py lines 73-158): write the `users` table with the
default save mode (line 101), write the `time` table (overwrite, line 130),
read the `songs` and `artists` tables back from the output area (lines
132-136; reading a missing destination raises), and write the `songplays`
table built from them (overwrite, line 158). -/
def process_log_data (store : OutputStore) (logs : List LogRecord) :
    Except String OutputStore := do
  let u ← writeSlot .errorIfExists store.users (users_table logs)
  let t ← writeSlot .overwrite store.time (time_table logs)
  match store.songs, store.artists with
  | some songDf, some artistsTab =>
      let sp ← writeSlot .overwrite store.songplays
        (songplays_from logs songDf (artistsTab.map dropLocation))
      pure { store with users := u, time := t, songplays := sp }
  | _, _ => .error "path does not exist"

/-- `main` (etl.py lines 161-171): run the song-data stage, then the log-data
stage, over the same output area. -/
def runEtl (store : OutputStore) (srecs : List SongRecord)
    (logs : List LogRecord) : Except String OutputStore := do
  let s1 ← process_song_data store srecs
  process_log_data s1 logs

/-- Status of one attribute of a raw JSON record relative to the declared
schema: present and well-typed, present but not conforming, or absent. -/
inductive JsonField (α : Type) where
  | wellTyped : α → JsonField α
  | malformed : JsonField α
  | missing : JsonField α
deriving DecidableEq

/-- Raw song-metadata JSON record before schema coercion: each declared
attribute (etl.py lines 42-51) is well-typed, malformed or missing. -/
structure RawSongRecord where
  num_songs : JsonField Int
  artist_id : JsonField String
  artist_latitude : JsonField Rat
  artist_longitude : JsonField Rat
  artist_location : JsonField String
  artist_name : JsonField String
  song_id : JsonField String
  title : JsonField String
  duration : JsonField Rat
  year : JsonField Int
deriving DecidableEq

/-- Schema coercion of one attribute: a non-conforming attribute becomes
null. -/
def coerceField {α : Type} : JsonField α → Option α
  | .wellTyped a => some a
  | _ => none

/-- Modelled from the spec: the schema-on-read JSON loader
(`spark.read.json(song_data, schema=song_schema)`, etl.py line 52) is external
to the repository; per the spec, records not matching the declared schema are
kept and their non-conforming attributes are coerced to null, rather than the
record being dropped or an error raised. -/
def readSongRecord (r : RawSongRecord) : SongRecord :=
  { num_songs := coerceField r.num_songs
    artist_id := coerceField r.artist_id
    artist_latitude := coerceField r.artist_latitude
    artist_longitude := coerceField r.artist_longitude
    artist_location := coerceField r.artist_location
    artist_name := coerceField r.artist_name
    song_id := coerceField r.song_id
    title := coerceField r.title
    duration := coerceField r.duration
    year := coerceField r.year }

/-- Modelled from the spec: reading the whole song dataset keeps every raw
record, null-coerced. -/
def read_song_json (raws : List RawSongRecord) : List SongRecord :=
  raws.map readSongRecord


/-- Fixture song record from the end-to-end scenario of the documentation. -/
def demoSong : SongRecord :=
  { num_songs := some 1, artist_id := some "A1", artist_latitude := none,
    artist_longitude := none, artist_location := none,
    artist_name := some "Test Artist", song_id := some "S1",
    title := some "Test Song", duration := some 200, year := some 2018 }

/-- Fixture activity record from the end-to-end scenario of the
documentation (ts = 1541440000000, i.e. 2018-11-05 17:46:40 UTC). -/
def demoEvent : LogRecord :=
  { userId := some "U1", firstName := some "F", lastName := some "L",
    gender := some "M", level := some "paid", ts := 1541440000000,
    page := some "NextSong", song := some "Test Song",
    artist := some "Test Artist", sessionId := some 1,
    location := some "LOC", userAgent := some "UA" }

/-- A second qualifying record with the same timestamp as `demoEvent` but a
different session. -/
def demoEvent2 : LogRecord := { demoEvent with sessionId := some 2 }

/-- The same user as `demoEvent` appearing with the other `level` value. -/
def demoEventFree : LogRecord := { demoEvent with level := some "free" }

/-- Fixture song whose catalog artist is X with id A1. -/
def dualSong1 : SongRecord :=
  { num_songs := some 1, artist_id := some "A1", artist_latitude := none,
    artist_longitude := none, artist_location := none,
    artist_name := some "X", song_id := some "S1",
    title := some "T", duration := some 100, year := some 2001 }

/-- Fixture song whose catalog artist is Y with id A2. -/
def dualSong2 : SongRecord :=
  { num_songs := some 1, artist_id := some "A2", artist_latitude := none,
    artist_longitude := none, artist_location := none,
    artist_name := some "Y", song_id := some "S2",
    title := some "T2", duration := some 100, year := some 2002 }

/-- Fixture event playing title T (whose catalog artist id is A1) while naming
artist Y (whose artist id is A2). -/
def dualEvent : LogRecord :=
  { demoEvent with song := some "T", artist := some "Y" }

/-- Raw song record whose `title` does not conform to the declared schema. -/
def rawBadTitle : RawSongRecord :=
  { num_songs := .wellTyped 1, artist_id := .wellTyped "A9",
    artist_latitude := .missing, artist_longitude := .missing,
    artist_location := .missing, artist_name := .wellTyped "Some Artist",
    song_id := .wellTyped "S9", title := .malformed,
    duration := .wellTyped 150, year := .wellTyped 1999 }

/-- An output area with no existing content. -/
def emptyStore : OutputStore :=
  { songs := none, artists := none, users := none, time := none,
    songplays := none }

/-- A string of the shape rendered by `formatSeconds` contains a colon. -/
theorem colon_mem_pattern (a b c d e f : Nat) :
    ':' ∈ (toString a ++ "-" ++ pad2 b ++ "-" ++ pad2 c ++ " " ++ pad2 d ++ ":" ++
      pad2 e ++ ":" ++ pad2 f).data :=
  List.mem_append_left _ (List.mem_append_right _ (List.mem_singleton.mpr rfl))

/-- Every rendered timestamp contains a colon. -/
theorem colon_mem_formatSeconds (s : Nat) : ':' ∈ (formatSeconds s).data := by
  have heq : formatSeconds s =
      toString (civilFromDays (epochDays s)).1 ++ "-" ++
        pad2 (civilFromDays (epochDays s)).2.1 ++ "-" ++
        pad2 (civilFromDays (epochDays s)).2.2 ++ " " ++
        pad2 (secOfDay s / 3600) ++ ":" ++ pad2 (secOfDay s % 3600 / 60) ++ ":" ++
        pad2 (secOfDay s % 60) := rfl
  rw [heq]
  exact colon_mem_pattern _ _ _ _ _ _

/-- A string containing a colon is not a decimal literal, so its double cast
is null. -/
theorem castDouble_eq_none_of_colon {s : String} (h : ':' ∈ s.data) :
    castDouble s = none := by
  unfold castDouble
  have hall : s.data.all doubleChar = false := by
    rw [List.all_eq_false]
    exact ⟨':', h, by decide⟩
  rw [hall]
  simp

/-- The rendered `start_time` of a derived time row casts to null. -/
theorem castDouble_timeRow (ts2 : Nat) :
    castDouble (timeRowOf ts2).start_time = none := by
  have h1 : (timeRowOf ts2).start_time = formatSeconds (ts2 / 1000) := rfl
  rw [h1]
  exact castDouble_eq_none_of_colon (colon_mem_formatSeconds _)

/-- A null cast of `start_time` makes the `ts == start_time` comparison
false. -/
theorem tsEqStartTime_none (ts : Nat) (t : TimeRow)
    (h : castDouble t.start_time = none) : tsEqStartTime ts t = false := by
  unfold tsEqStartTime
  rw [h]

/-- The `ts == start_time` comparison of etl.py lines 141-142 never holds
against a derived time row. -/
theorem tsEqStartTime_timeRow (ts ts2 : Nat) :
    tsEqStartTime ts (timeRowOf ts2) = false :=
  tsEqStartTime_none ts (timeRowOf ts2) (castDouble_timeRow ts2)

/-- Membership in the `time` table. -/
theorem mem_time_table {logs : List LogRecord} {t : TimeRow} :
    t ∈ time_table logs ↔
      ∃ e, e ∈ logs ∧ e.page = some "NextSong" ∧ t = timeRowOf e.ts := by
  unfold time_table nextSongEvents
  simp only [List.mem_map, List.mem_filter, beq_iff_eq]
  constructor
  · rintro ⟨e, ⟨he, hp⟩, ht⟩
    exact ⟨e, he, hp, ht.symm⟩
  · rintro ⟨e, he, hp, ht⟩
    exact ⟨e, ⟨he, hp⟩, ht.symm⟩

/-- The `ts == start_time` comparison never holds against any row of the
`time` table. -/
theorem tsEqStartTime_false_of_mem {logs : List LogRecord} {t : TimeRow}
    (h : t ∈ time_table logs) (ts : Nat) : tsEqStartTime ts t = false := by
  obtain ⟨e, -, -, rfl⟩ := mem_time_table.1 h
  exact tsEqStartTime_timeRow ts e.ts

/-- The events-against-songs join factors into one map per event. -/
theorem df_songs_join_df_eq (logs : List LogRecord) (songDf : List SongsRow) :
    df_songs_join_df logs songDf =
      (nextSongEvents logs).flatMap fun e =>
        (songDf.filter fun s => sqlEqStr s.title e.song).map fun s =>
          (e, dropArtistId s) := by
  unfold df_songs_join_df innerJoin
  rw [List.map_flatMap]
  simp only [List.map_map]
  rfl

/-- The two inner joins factor into nested per-event comprehensions. -/
theorem df_artists_songs_join_df_eq (logs : List LogRecord)
    (songDf : List SongsRow) (artistsDf : List ArtistsDropLoc) :
    df_artists_songs_join_df logs songDf artistsDf =
      (nextSongEvents logs).flatMap fun e =>
        (songDf.filter fun s => sqlEqStr s.title e.song).flatMap fun s =>
          (artistsDf.filter fun a => sqlEqStr e.artist a.name).map fun a =>
            ((e, dropArtistId s), a) := by
  unfold df_artists_songs_join_df innerJoin
  rw [df_songs_join_df_eq, List.flatMap_assoc]
  simp [List.flatMap_map]

/-- The whole songplays pipeline factors into nested per-event
comprehensions. -/
theorem songplays_from_eq_flatMap (logs : List LogRecord)
    (songDf : List SongsRow) (artistsDf : List ArtistsDropLoc) :
    songplays_from logs songDf artistsDf =
      (nextSongEvents logs).flatMap fun e =>
        (songDf.filter fun s => sqlEqStr s.title e.song).flatMap fun s =>
          (artistsDf.filter fun a => sqlEqStr e.artist a.name).flatMap fun a =>
            (nullExtend ((time_table logs).filter fun t =>
                tsEqStartTime e.ts t)).map fun ot =>
              mkSongplayRow (((e, dropArtistId s), a), ot) := by
  unfold songplays_from leftJoin
  rw [List.map_flatMap, df_artists_songs_join_df_eq]
  rw [List.flatMap_assoc]
  simp only [List.flatMap_assoc, List.flatMap_map, List.map_map]
  rfl

/-- Flat-mapping over a filtered list is flat-mapping a guarded function. -/
theorem filter_flatMap_if {α β : Type} (l : List α) (p : α → Bool)
    (f : α → List β) :
    (l.filter p).flatMap f = l.flatMap fun a => if p a then f a else [] := by
  induction l with
  | nil => rfl
  | cons a t ih =>
      by_cases h : p a = true
      · rw [List.filter_cons_of_pos h, List.flatMap_cons, ih, List.flatMap_cons, if_pos h]
      · rw [List.filter_cons_of_neg (by simpa using h), List.flatMap_cons, ih,
          if_neg h, List.nil_append]

/-- The songplays pipeline is the concatenation, over all activity records, of
the per-event rows `eventSongplays`. -/
theorem songplays_from_eq_events (logs : List LogRecord)
    (songDf : List SongsRow) (artistsDf : List ArtistsDropLoc) :
    songplays_from logs songDf artistsDf =
      logs.flatMap (eventSongplays songDf artistsDf (time_table logs)) := by
  rw [songplays_from_eq_flatMap]
  unfold nextSongEvents
  rw [filter_flatMap_if]
  rfl

/-- No row of the `time` table passes the `ts == start_time` condition. -/
theorem time_table_filter_nil (logs : List LogRecord) (ts : Nat) :
    (time_table logs).filter (fun t => tsEqStartTime ts t) = [] := by
  rw [List.filter_eq_nil_iff]
  intro t ht
  simp [tsEqStartTime_false_of_mem ht ts]

/-- Against the actual `time` table the left join matches nothing, so each
per-event row carries a null time side. -/
theorem eventSongplays_time_none (songDf : List SongsRow)
    (artistsDf : List ArtistsDropLoc) (logs : List LogRecord) (e : LogRecord) :
    eventSongplays songDf artistsDf (time_table logs) e =
      if e.page == some "NextSong" then
        (songDf.filter fun s => sqlEqStr s.title e.song).flatMap fun s =>
          (artistsDf.filter fun a => sqlEqStr e.artist a.name).map fun a =>
            mkSongplayRow (((e, dropArtistId s), a), none)
      else [] := by
  unfold eventSongplays
  rw [time_table_filter_nil]
  have hne : nullExtend ([] : List TimeRow) = [none] := rfl
  rw [hne]
  simp only [List.map_cons, List.map_nil, ← List.map_eq_flatMap]

/-- Membership in the per-event songplays rows. -/
theorem mem_eventSongplays {songDf : List SongsRow}
    {artistsDf : List ArtistsDropLoc} {logs : List LogRecord} {e : LogRecord}
    {row : SongplayRow} :
    row ∈ eventSongplays songDf artistsDf (time_table logs) e ↔
      e.page = some "NextSong" ∧
        ∃ s, s ∈ songDf ∧ sqlEqStr s.title e.song = true ∧
          ∃ a, a ∈ artistsDf ∧ sqlEqStr e.artist a.name = true ∧
            row = mkSongplayRow (((e, dropArtistId s), a), none) := by
  rw [eventSongplays_time_none]
  by_cases h : e.page = some "NextSong"
  · rw [if_pos (by simpa using h)]
    simp only [List.mem_flatMap, List.mem_map, List.mem_filter, h, true_and]
    constructor
    · rintro ⟨s, ⟨hs, hst⟩, a, ⟨ha, han⟩, hrow⟩
      exact ⟨s, hs, hst, a, ha, han, hrow.symm⟩
    · rintro ⟨s, hs, hst, a, ha, han, hrow⟩
      exact ⟨s, ⟨hs, hst⟩, a, ⟨ha, han⟩, hrow.symm⟩
  · rw [if_neg (by simpa using h)]
    simp [h]

/-- Membership in the songplays table: a row exists exactly for a qualifying
event together with a title-matched song row and a name-matched artist row,
and its time side is null. -/
theorem mem_songplays_from {logs : List LogRecord} {songDf : List SongsRow}
    {artistsDf : List ArtistsDropLoc} {row : SongplayRow} :
    row ∈ songplays_from logs songDf artistsDf ↔
      ∃ e, e ∈ logs ∧ e.page = some "NextSong" ∧
        ∃ s, s ∈ songDf ∧ sqlEqStr s.title e.song = true ∧
          ∃ a, a ∈ artistsDf ∧ sqlEqStr e.artist a.name = true ∧
            row = mkSongplayRow (((e, dropArtistId s), a), none) := by
  rw [songplays_from_eq_events]
  simp only [List.mem_flatMap, mem_eventSongplays]

/-- Spark's string equality holds exactly on two equal non-null strings. -/
theorem sqlEqStr_iff (x y : Option String) :
    sqlEqStr x y = true ↔ ∃ v, x = some v ∧ y = some v := by
  cases x with
  | none => simp [sqlEqStr]
  | some a =>
      cases y with
      | none => simp [sqlEqStr]
      | some b =>
          simp only [sqlEqStr, beq_iff_eq]
          constructor
          · rintro rfl
            exact ⟨a, rfl, rfl⟩
          · rintro ⟨v, ha, hb⟩
            rw [Option.some_inj] at ha hb
            rw [ha, hb]

/-- A filtered list is inhabited exactly when some element passes the
filter. -/
theorem filter_length_ne_zero_iff {α : Type} (l : List α) (p : α → Bool) :
    (l.filter p).length ≠ 0 ↔ ∃ a, a ∈ l ∧ p a = true := by
  rw [ne_eq, List.length_eq_zero, List.filter_eq_nil_iff]
  push_neg
  simp

/-- Length of a flatMap of maps: the size of the cartesian product. -/
theorem length_flatMap_map {α β γ : Type} (l : List α) (m : List γ)
    (g : α → γ → β) :
    (l.flatMap fun s => m.map (g s)).length = l.length * m.length := by
  induction l with
  | nil => simp
  | cons a t ih => simp [List.flatMap_cons, ih, Nat.succ_mul, Nat.add_comm]

/-- The udf weekday (CPython ordinal arithmetic) agrees with the
Thursday-anchored ISO-convention weekday on every epoch-millisecond value. -/
theorem get_week_day_eq_iso (ts : Nat) : get_week_day ts = isoWeekdayOfMillis ts := by
  unfold get_week_day pyWeekday pyOrdinal isoWeekdayOfMillis
  omega

/-- Fan-out size of the per-event songplays rows: one row per matching
song/artist pair (the time side of the left join contributes exactly one
null option). -/
theorem eventSongplays_length (logs : List LogRecord) (srecs : List SongRecord)
    (e : LogRecord) :
    (eventSongplays (songs_table srecs) ((artists_table srecs).map dropLocation)
        (time_table logs) e).length =
      (if e.page = some "NextSong" then 1 else 0) *
        (((songs_table srecs).filter fun s => sqlEqStr s.title e.song).length *
         (((artists_table srecs).map dropLocation).filter
            fun a => sqlEqStr e.artist a.name).length) := by
  rw [eventSongplays_time_none]
  by_cases h : e.page = some "NextSong"
  · rw [if_pos (by simpa using h), if_pos h, length_flatMap_map, Nat.one_mul]
  · rw [if_neg (by simpa using h), if_neg h, List.length_nil, Nat.zero_mul]

/-- C1: the songplays table decomposes into per-event row lists, an event
generates at least one row exactly when its page is NextSong, its song text
exactly equals the title of some songs-table row, and its artist text exactly
equals the name of some artists-table row (case-sensitive string equality, no
normalization), and the number of rows it generates is one per matching
song/artist pair — so a non-matching event is silently excluded. -/
theorem songplays_exact_catalog_match (logs : List LogRecord)
    (srecs : List SongRecord) (e : LogRecord) :
    songplays_table logs srecs =
      logs.flatMap (eventSongplays (songs_table srecs)
        ((artists_table srecs).map dropLocation) (time_table logs)) ∧
    (eventSongplays (songs_table srecs) ((artists_table srecs).map dropLocation)
        (time_table logs) e ≠ [] ↔
      (e.page = some "NextSong" ∧
        (∃ s, s ∈ songs_table srecs ∧ ∃ ttl, e.song = some ttl ∧ s.title = some ttl) ∧
        (∃ a, a ∈ artists_table srecs ∧ ∃ nm, e.artist = some nm ∧ a.name = some nm))) ∧
    (eventSongplays (songs_table srecs) ((artists_table srecs).map dropLocation)
        (time_table logs) e).length =
      (if e.page = some "NextSong" then 1 else 0) *
        (((songs_table srecs).filter fun s => sqlEqStr s.title e.song).length *
         (((artists_table srecs).map dropLocation).filter
            fun a => sqlEqStr e.artist a.name).length) := by
  refine ⟨songplays_from_eq_events logs _ _, ?_, eventSongplays_length logs srecs e⟩
  rw [← List.length_pos_iff_ne_nil, eventSongplays_length logs srecs e,
    Nat.pos_iff_ne_zero, ne_eq, Nat.mul_eq_zero, not_or, Nat.mul_eq_zero, not_or]
  have hif : ¬(if e.page = some "NextSong" then 1 else 0) = 0 ↔
      e.page = some "NextSong" := by
    by_cases hp : e.page = some "NextSong" <;> simp [hp]
  rw [hif]
  have hsongs :
      ¬((songs_table srecs).filter fun s => sqlEqStr s.title e.song).length = 0 ↔
        ∃ s, s ∈ songs_table srecs ∧ ∃ ttl, e.song = some ttl ∧ s.title = some ttl := by
    rw [← ne_eq, filter_length_ne_zero_iff]
    constructor
    · rintro ⟨s, hs, hq⟩
      obtain ⟨v, hv1, hv2⟩ := (sqlEqStr_iff _ _).1 hq
      exact ⟨s, hs, v, hv2, hv1⟩
    · rintro ⟨s, hs, v, hv1, hv2⟩
      exact ⟨s, hs, (sqlEqStr_iff _ _).2 ⟨v, hv2, hv1⟩⟩
  have hartists :
      ¬(((artists_table srecs).map dropLocation).filter
          fun a => sqlEqStr e.artist a.name).length = 0 ↔
        ∃ a, a ∈ artists_table srecs ∧ ∃ nm, e.artist = some nm ∧ a.name = some nm := by
    rw [← ne_eq, filter_length_ne_zero_iff]
    constructor
    · rintro ⟨a, ha, hq⟩
      obtain ⟨a0, ha0, rfl⟩ := List.mem_map.1 ha
      obtain ⟨v, hv1, hv2⟩ := (sqlEqStr_iff _ _).1 hq
      exact ⟨a0, ha0, v, hv1, hv2⟩
    · rintro ⟨a, ha, v, hv1, hv2⟩
      exact ⟨dropLocation a, List.mem_map.2 ⟨a, ha, rfl⟩,
        (sqlEqStr_iff _ _).2 ⟨v, hv1, hv2⟩⟩
  rw [hsongs, hartists]

/-- C2: at the end-to-end fixture (one matching song and one qualifying event
with ts = 1541440000000), the songplays row exists but its `start_time`,
`year` and `month` are null — the left join on `ts == start_time` compares a
long against a rendered string and never matches, so year/month recovery
fails and the row cannot be placed in the partition of its event
timestamp. -/
theorem songplays_time_join_never_matches :
    songplays_table [demoEvent] [demoSong] =
      [{ start_time := none, user_id := some "U1", level := some "paid",
         song_id := some "S1", artist_id := some "A1", session_id := some 1,
         location := some "LOC", user_agent := some "UA",
         year := none, month := none }] := by
  decide

/-- C3, counterexample: two qualifying records with the same timestamp yield
two time-table rows with equal `start_time`, so the start_time values of the
time table are not pairwise distinct. -/
theorem time_table_start_time_not_distinct :
    ¬ ((time_table [demoEvent, demoEvent2]).map fun t => t.start_time).Nodup := by
  decide

/-- C3, amended: the time table has one row per qualifying activity record
(no deduplication), and every qualifying record's derived start_time appears
in some row; distinct records sharing a derived start_time produce duplicate
rows. -/
theorem time_table_one_row_per_event (logs : List LogRecord) :
    (time_table logs).length = (nextSongEvents logs).length ∧
    (∀ e, e ∈ logs → e.page = some "NextSong" →
      ∃ t, t ∈ time_table logs ∧ t.start_time = get_timestamp e.ts) := by
  refine ⟨List.length_map _ _, fun e he hp => ?_⟩
  exact ⟨timeRowOf e.ts, mem_time_table.2 ⟨e, he, hp, rfl⟩, rfl⟩

theorem time_rows_witness :
    ∃ t, t ∈ time_table [demoEvent] ∧ t.start_time = get_timestamp demoEvent.ts :=
  (time_table_one_row_per_event [demoEvent]).2 demoEvent (by simp) (by decide)

/-- C4: the weekday column of every time-table row equals the ISO-convention
weekday (0 = Monday .. 6 = Sunday) of the UTC instant of the record's ts; in
particular ts = 1541440000000 falls on 2018-11-05, a Monday, and the value 0
agrees with the independent Sakamoto computation on that civil date. -/
theorem time_weekday_iso_convention (logs : List LogRecord) :
    (∀ t, t ∈ time_table logs →
      ∃ e, e ∈ logs ∧ e.page = some "NextSong" ∧
        t.weekday = isoWeekdayOfMillis e.ts) ∧
    (timeRowOf 1541440000000).weekday = 0 ∧
    civilFromDays (epochDays (1541440000000 / 1000)) = (2018, 11, 5) ∧
    isoWeekdayFromCivil 2018 11 5 = 0 := by
  refine ⟨fun t ht => ?_, by decide, by decide, by decide⟩
  obtain ⟨e, he, hp, rfl⟩ := mem_time_table.1 ht
  refine ⟨e, he, hp, ?_⟩
  have h : (timeRowOf e.ts).weekday = get_week_day e.ts := rfl
  rw [h, get_week_day_eq_iso]

theorem weekday_witness :
    ∃ e, e ∈ [demoEvent] ∧ e.page = some "NextSong" ∧
      (timeRowOf 1541440000000).weekday = isoWeekdayOfMillis e.ts :=
  (time_weekday_iso_convention [demoEvent]).1 (timeRowOf 1541440000000) (by decide)

/-- C5: the songs table is the set-distinct projection of
(song_id, title, artist_id, year, duration): no two rows are identical, a row
exists exactly for the projection of some input record, and each input
record's projection survives exactly once. -/
theorem songs_table_set_distinct_projection (srecs : List SongRecord) :
    (songs_table srecs).Nodup ∧
    (∀ row, row ∈ songs_table srecs ↔ ∃ r, r ∈ srecs ∧ songsProj r = row) ∧
    (∀ r, r ∈ srecs → (songs_table srecs).count (songsProj r) = 1) := by
  refine ⟨List.nodup_dedup _, fun row => ?_, fun r hr => ?_⟩
  · unfold songs_table
    rw [List.mem_dedup, List.mem_map]
  · exact List.count_eq_one_of_mem (List.nodup_dedup _)
      (List.mem_dedup.2 (List.mem_map.2 ⟨r, hr, rfl⟩))

theorem songs_witness :
    demoSong ∈ [demoSong] ∧
    (songs_table [demoSong]).count (songsProj demoSong) = 1 :=
  ⟨by simp, (songs_table_set_distinct_projection [demoSong]).2.2 demoSong (by simp)⟩

/-- C6: the users table never holds two identical rows, and when a user id
appears among the qualifying records with exactly two level values (all other
projected fields fixed), the table holds exactly two rows for that user id —
one per level value. -/
theorem users_table_distinct_levels (logs : List LogRecord)
    (uid fn ln g l1 l2 : Option String)
    (hall : ∀ e, e ∈ logs → e.page = some "NextSong" → e.userId = uid →
      e.firstName = fn ∧ e.lastName = ln ∧ e.gender = g ∧
        (e.level = l1 ∨ e.level = l2))
    (h1 : ∃ e, e ∈ logs ∧ e.page = some "NextSong" ∧ e.userId = uid ∧ e.level = l1)
    (h2 : ∃ e, e ∈ logs ∧ e.page = some "NextSong" ∧ e.userId = uid ∧ e.level = l2)
    (hne : l1 ≠ l2) :
    (users_table logs).Nodup ∧
    ((users_table logs).filter fun u => u.user_id == uid).length = 2 := by
  refine ⟨List.nodup_dedup _, ?_⟩
  set r1 : UsersRow := ⟨uid, fn, ln, g, l1⟩ with hr1
  set r2 : UsersRow := ⟨uid, fn, ln, g, l2⟩ with hr2
  have hmemu : ∀ u : UsersRow, u ∈ users_table logs ↔
      ∃ e, e ∈ logs ∧ e.page = some "NextSong" ∧ usersProj e = u := by
    intro u
    unfold users_table nextSongEvents
    rw [List.mem_dedup, List.mem_map]
    constructor
    · rintro ⟨e, he, hu⟩
      rw [List.mem_filter, beq_iff_eq] at he
      exact ⟨e, he.1, he.2, hu⟩
    · rintro ⟨e, he, hp, hu⟩
      exact ⟨e, List.mem_filter.2 ⟨he, by simp [hp]⟩, hu⟩
  have hmem : ∀ u : UsersRow,
      u ∈ (users_table logs).filter (fun u => u.user_id == uid) ↔
        u = r1 ∨ u = r2 := by
    intro u
    rw [List.mem_filter, hmemu]
    constructor
    · rintro ⟨⟨e, he, hp, hu⟩, hid⟩
      rw [beq_iff_eq] at hid
      have huid : e.userId = uid := by
        have hproj : (usersProj e).user_id = e.userId := rfl
        rw [hu] at hproj
        rw [← hproj, hid]
      obtain ⟨hf, hl, hg, hlev⟩ := hall e he hp huid
      rcases hlev with hlev | hlev
      · left
        rw [← hu, hr1]
        unfold usersProj
        rw [huid, hf, hl, hg, hlev]
      · right
        rw [← hu, hr2]
        unfold usersProj
        rw [huid, hf, hl, hg, hlev]
    · rintro (rfl | rfl)
      · obtain ⟨e, he, hp, huid, hlev⟩ := h1
        obtain ⟨hf, hl, hg, -⟩ := hall e he hp huid
        refine ⟨⟨e, he, hp, ?_⟩, by simp [hr1]⟩
        unfold usersProj
        rw [huid, hf, hl, hg, hlev]
      · obtain ⟨e, he, hp, huid, hlev⟩ := h2
        obtain ⟨hf, hl, hg, -⟩ := hall e he hp huid
        refine ⟨⟨e, he, hp, ?_⟩, by simp [hr2]⟩
        unfold usersProj
        rw [huid, hf, hl, hg, hlev]
  have hpairnd : ([r1, r2] : List UsersRow).Nodup := by
    refine List.nodup_cons.2 ⟨?_, List.nodup_singleton _⟩
    intro hmem12
    rw [List.mem_singleton] at hmem12
    apply hne
    have hlevq := congrArg UsersRow.level hmem12
    simpa [hr1, hr2] using hlevq
  have hnd : (users_table logs).Nodup := List.nodup_dedup _
  have hperm : ((users_table logs).filter
      (fun u => u.user_id == uid)).Perm [r1, r2] := by
    refine (List.perm_ext_iff_of_nodup (List.Nodup.filter _ hnd) hpairnd).2 ?_
    intro u
    rw [hmem u]
    simp
  simpa using hperm.length_eq

theorem users_witness :
    (users_table [demoEvent, demoEventFree]).Nodup ∧
    ((users_table [demoEvent, demoEventFree]).filter
      fun u => u.user_id == some "U1").length = 2 :=
  users_table_distinct_levels [demoEvent, demoEventFree] (some "U1") (some "F")
    (some "L") (some "M") (some "paid") (some "free")
    (by decide) (by decide) (by decide) (by decide)

/-- C7, counterexample: a first run over an empty output area succeeds, but
re-running the pipeline on the same (here empty) input over the populated
output area fails with an error instead of overwriting — the users write uses
the default error-if-exists save mode. -/
theorem etl_rerun_fails :
    runEtl emptyStore [] [] =
      .ok { songs := some [], artists := some [], users := some [],
            time := some [], songplays := some [] } ∧
    runEtl { songs := some [], artists := some [], users := some [],
             time := some [], songplays := some [] } [] [] =
      .error "path already exists" := by
  exact ⟨rfl, rfl⟩

/-- C7, amended: the songs, artists, time and songplays writes are full
overwrites, but the users write (etl.py line 101) uses the default
error-if-exists mode: a run succeeds exactly when no users output exists yet,
in which case the result is a pure function of the input (independent of any
prior content of the other destinations); a rerun over a populated output
area aborts at the users write. -/
theorem etl_write_modes (store : OutputStore) (srecs : List SongRecord)
    (logs : List LogRecord) :
    (store.users = none → runEtl store srecs logs = .ok
      { songs := some (songs_table srecs), artists := some (artists_table srecs),
        users := some (users_table logs), time := some (time_table logs),
        songplays := some (songplays_table logs srecs) }) ∧
    (∀ u, store.users = some u →
      runEtl store srecs logs = .error "path already exists") := by
  obtain ⟨ss, sa, su, st, sp⟩ := store
  constructor
  · intro h
    have h2 : su = none := h
    subst h2
    rfl
  · intro u h
    have h2 : su = some u := h
    subst h2
    rfl

theorem write_modes_witness :
    runEtl emptyStore [] [] =
      .ok { songs := some (songs_table []), artists := some (artists_table []),
            users := some (users_table []), time := some (time_table []),
            songplays := some (songplays_table [] []) } ∧
    runEtl { songs := some [], artists := some [], users := some [],
             time := some [], songplays := some [] } [] [] =
      .error "path already exists" :=
  ⟨(etl_write_modes emptyStore [] []).1 rfl,
    (etl_write_modes
      { songs := some [], artists := some [], users := some [],
        time := some [], songplays := some [] } [] []).2 [] rfl⟩

/-- C8: the schema-on-read loader drops no record: every raw song record,
malformed attributes null-coerced, still contributes its row to the songs and
artists projections, and a record whose title did not conform carries a null
title that can never match any event in the songplays join. -/
theorem song_schema_null_coercion (raws : List RawSongRecord)
    (r : RawSongRecord) (hr : r ∈ raws) :
    (read_song_json raws).length = raws.length ∧
    songsProj (readSongRecord r) ∈ songs_table (read_song_json raws) ∧
    artistsProj (readSongRecord r) ∈ artists_table (read_song_json raws) ∧
    ((r.title = JsonField.missing ∨ r.title = JsonField.malformed) →
      ∀ e : LogRecord,
        sqlEqStr (songsProj (readSongRecord r)).title e.song = false) := by
  refine ⟨List.length_map _ _, ?_, ?_, ?_⟩
  · exact List.mem_dedup.2 (List.mem_map.2 ⟨readSongRecord r,
      List.mem_map.2 ⟨r, hr, rfl⟩, rfl⟩)
  · exact List.mem_dedup.2 (List.mem_map.2 ⟨readSongRecord r,
      List.mem_map.2 ⟨r, hr, rfl⟩, rfl⟩)
  · intro ht e
    have hnone : (songsProj (readSongRecord r)).title = none := by
      have hc : (songsProj (readSongRecord r)).title = coerceField r.title := rfl
      rw [hc]
      rcases ht with h | h <;> rw [h] <;> rfl
    rw [hnone]
    rfl

theorem schema_witness :
    sqlEqStr (songsProj (readSongRecord rawBadTitle)).title demoEvent.song = false :=
  (song_schema_null_coercion [rawBadTitle] rawBadTitle (by simp)).2.2.2
    (Or.inr rfl) demoEvent

/-- C9, counterexample: at the end-to-end fixture the (unique) songplays row
has a null start_time, not the UTC rendering of its event's ts (which would be
the non-null string computed here), because the time join never matches. -/
theorem songplays_start_time_null_counterexample :
    ((songplays_table [demoEvent] [demoSong]).map fun r => r.start_time) = [none] ∧
    get_timestamp demoEvent.ts = "2018-11-05 17:46:40" := by
  exact ⟨by decide, by decide⟩

/-- C9, amended: the start_time of every time-table row is the UTC rendering
of the record's ts formatted to whole seconds as "%Y-%m-%d %H:%M:%S" (for the
fixture millisecond value this is "2018-11-05 17:46:40"), and two ts values in
the same UTC second render identically; songplays rows, by contrast, always
carry a null start_time because the time join never matches. -/
theorem start_time_whole_second_rendering (logs : List LogRecord)
    (ts1 ts2 : Nat) :
    (∀ t, t ∈ time_table logs →
      ∃ e, e ∈ logs ∧ e.page = some "NextSong" ∧
        t.start_time = get_timestamp e.ts) ∧
    get_timestamp 1541440000000 = "2018-11-05 17:46:40" ∧
    (ts1 / 1000 = ts2 / 1000 → get_timestamp ts1 = get_timestamp ts2) ∧
    (∀ srecs row, row ∈ songplays_table logs srecs → row.start_time = none) := by
  refine ⟨fun t ht => ?_, by decide, fun h => ?_, fun srecs row hrow => ?_⟩
  · obtain ⟨e, he, hp, rfl⟩ := mem_time_table.1 ht
    exact ⟨e, he, hp, rfl⟩
  · unfold get_timestamp
    rw [h]
  · obtain ⟨e, -, -, s, -, -, a, -, -, rfl⟩ := mem_songplays_from.1 hrow
    rfl

theorem rendering_witness :
    (∃ e, e ∈ [demoEvent] ∧ e.page = some "NextSong" ∧
      (timeRowOf 1541440000000).start_time = get_timestamp e.ts) ∧
    get_timestamp 1541441000000 = get_timestamp 1541441000999 ∧
    ({ start_time := none, user_id := some "U1", level := some "paid",
       song_id := some "S1", artist_id := some "A1", session_id := some 1,
       location := some "LOC", user_agent := some "UA",
       year := none, month := none } : SongplayRow).start_time = none := by
  refine ⟨(start_time_whole_second_rendering [demoEvent] 0 0).1
      (timeRowOf 1541440000000) (by decide),
    (start_time_whole_second_rendering [] 1541441000000 1541441000999).2.2.1
      (by decide),
    (start_time_whole_second_rendering [demoEvent] 0 0).2.2.2 [demoSong] _
      (by decide)⟩

/-- C10: the artist_id of every songplays row is the artist_id of an
artists-table row whose name exactly matches the event's artist text (the
song-side artist_id having been dropped before the artists join); at the dual
fixture the matched song's own catalog artist id is A1 yet the row carries A2,
the id of the artist row bearing the event's artist name. -/
theorem songplays_artist_id_from_artists_join (logs : List LogRecord)
    (srecs : List SongRecord) (row : SongplayRow)
    (hrow : row ∈ songplays_table logs srecs) :
    ∃ a, a ∈ artists_table srecs ∧ row.artist_id = a.artist_id ∧
      ∃ e, e ∈ logs ∧ e.page = some "NextSong" ∧
        ∃ nm, e.artist = some nm ∧ a.name = some nm := by
  obtain ⟨e, he, hp, s, hs, hst, a, ha, han, rfl⟩ := mem_songplays_from.1 hrow
  obtain ⟨a0, ha0, rfl⟩ := List.mem_map.1 ha
  obtain ⟨v, hv1, hv2⟩ := (sqlEqStr_iff _ _).1 han
  exact ⟨a0, ha0, rfl, e, he, hp, v, hv1, hv2⟩

theorem artist_id_witness :
    ((songplays_table [dualEvent] [dualSong1, dualSong2]).map
      fun r => (r.song_id, r.artist_id)) = [(some "S1", some "A2")] ∧
    (∃ a, a ∈ artists_table [dualSong1, dualSong2] ∧
      ({ start_time := none, user_id := some "U1", level := some "paid",
         song_id := some "S1", artist_id := some "A2", session_id := some 1,
         location := some "LOC", user_agent := some "UA",
         year := none, month := none } : SongplayRow).artist_id = a.artist_id ∧
      ∃ e, e ∈ [dualEvent] ∧ e.page = some "NextSong" ∧
        ∃ nm, e.artist = some nm ∧ a.name = some nm) :=
  ⟨by decide,
    songplays_artist_id_from_artists_join [dualEvent] [dualSong1, dualSong2] _
      (by decide)⟩
